import Mathlib

/-!
Shallow embedding of `src/main.rs` of the rs-refresh-ddns repository.

The program resolves the host's current IPv6 address (via an external HTTP
service or by enumerating local network interfaces) and publishes it to the
DuckDNS update endpoint on a cron schedule.  The embedding models each Rust
function as a pure Lean function; the outside world (HTTP responses, the
interface table, environment variables, the configuration file) is passed in
explicitly, and emitted log lines are returned as data.
-/

namespace Ddns

/-- Severity levels of the `tracing` macros used in the source
(`debug!`, `info!`, `error!`; `warn!` is available in the library but unused). -/
inductive LogLevel where
  | debug
  | info
  | warn
  | error
deriving DecidableEq, Repr

/-- One emitted log line: a severity and the formatted message. -/
structure LogEntry where
  level : LogLevel
  msg : String
deriving DecidableEq, Repr

/-- An IP address as the `if-addrs` crate reports it: either IPv4 or IPv6,
carried here in its textual form (the source only ever calls `to_string()`). -/
inductive IpAddr where
  | v4 (a : String)
  | v6 (a : String)
deriving DecidableEq, Repr

/-- One entry of `if_addrs::get_if_addrs()`: an interface name, its loopback
flag, and the single address of this entry. -/
structure IfAddr where
  name : String
  is_loopback : Bool
  ip : IpAddr
deriving DecidableEq, Repr

/-- The runtime configuration (`struct Config` in the source). -/
structure Config where
  cron : String
  ipv6_method : String
  ip_service_url : String
  duckdns_domain : String
  duckdns_token : String
  hosts_interface : Option String
deriving DecidableEq, Repr

/-- The parsed configuration file (`struct ConfigFile` in the source):
every field optional. -/
structure ConfigFile where
  cron : Option String
  ipv6_method : Option String
  ip_service_url : Option String
  duckdns_domain : Option String
  duckdns_token : Option String
  hosts_interface : Option String
deriving DecidableEq, Repr

/-- `Config::from_file`: `fileData` is `none` when the file is missing or does
not parse (the early `?` failures), otherwise the parsed `ConfigFile`.
The required fields fail via `ok_or`, the rest take defaults. -/
def from_file (fileData : Option ConfigFile) : Option Config :=
  match fileData with
  | none => none
  | some cf =>
    match cf.duckdns_domain, cf.duckdns_token with
    | some d, some t =>
        some { cron := cf.cron.getD "0 */5 * * * *"
             , ipv6_method := cf.ipv6_method.getD "external"
             , ip_service_url := cf.ip_service_url.getD "https://6.ipw.cn"
             , duckdns_domain := d
             , duckdns_token := t
             , hosts_interface := cf.hosts_interface }
    | _, _ => none

/-- `Config::from_env`: first try the configuration file; otherwise read the
environment (`env` maps a variable name to its value, `none` when unset).
`.expect` on a missing `DUCKDNS_DOMAIN` / `DUCKDNS_TOKEN` panics, modelled as
the `none` result (a fatal startup error). -/
def from_env (fileData : Option ConfigFile) (env : String → Option String) :
    Option Config :=
  match from_file fileData with
  | some c => some c
  | none =>
    match env "DUCKDNS_DOMAIN", env "DUCKDNS_TOKEN" with
    | some d, some t =>
        some { cron := (env "CRON").getD "0 */5 * * * *"
             , ipv6_method := (env "IPV6_METHOD").getD "external"
             , ip_service_url := (env "IP_SERVICE_URL").getD "https://6.ipw.cn"
             , duckdns_domain := d
             , duckdns_token := t
             , hosts_interface := env "HOSTS_INTERFACE" }
    | _, _ => none

/-- In `main`, `Config::from_env()` runs before the scheduler is created and
started; a fatal configuration error (panic) therefore means the scheduler is
never started. -/
def scheduler_started (fileData : Option ConfigFile)
    (env : String → Option String) : Bool :=
  (from_env fileData env).isSome

/-- `get_ipv6_from_external_service`: one GET to `url`; `response` is the
transport-level result of `send()?.text()?` (error = any transport failure,
ok = the full response body).  The body is returned as-is. -/
def get_ipv6_from_external_service (url : String)
    (response : Except String String) :
    List LogEntry × Except String String :=
  match response with
  | .error e =>
      ([⟨.debug, "Fetching IPv6 from external service: " ++ url⟩], .error e)
  | .ok body =>
      ([⟨.debug, "Fetching IPv6 from external service: " ++ url⟩,
        ⟨.debug, "Got IPv6 from external service: " ++ body⟩], .ok body)

/-- `get_local_ipv6_address`: walk the `if_addrs` entries in order; with an
interface name, skip entries of other names; skip loopback entries only when
no name was given; return the first IPv6 address reached, else the
corresponding error string. -/
def get_local_ipv6_address (interface_name : Option String) :
    List IfAddr → List LogEntry × Except String String
  | [] =>
    ([], match interface_name with
         | some name =>
             .error ("No IPv6 address found for interface \x27" ++ name ++ "\x27")
         | none => .error "No public IPv6 address found on any interface")
  | iface :: rest =>
    if (match interface_name with
        | some name => iface.name != name
        | none => false) then
      get_local_ipv6_address interface_name rest
    else if iface.is_loopback && interface_name.isNone then
      get_local_ipv6_address interface_name rest
    else
      match iface.ip with
      | .v6 a =>
          ([⟨.debug, "Got IPv6 address from interface \x27" ++ iface.name ++
             "\x27: " ++ a⟩], .ok a)
      | .v4 _ => get_local_ipv6_address interface_name rest

/-- `get_ipv6_address`: dispatch on the `ipv6_method` string; any value other
than "external" / "local" logs an `error!` line and falls back to the
external service. -/
def get_ipv6_address (config : Config) (externalResponse : Except String String)
    (ifaces : List IfAddr) : List LogEntry × Except String String :=
  if config.ipv6_method = "external" then
    get_ipv6_from_external_service config.ip_service_url externalResponse
  else if config.ipv6_method = "local" then
    get_local_ipv6_address config.hosts_interface ifaces
  else
    let r := get_ipv6_from_external_service config.ip_service_url externalResponse
    (⟨.error, "Invalid IPV6_METHOD: " ++ config.ipv6_method ++
       ". Using external service."⟩ :: r.1, r.2)

/-- The DuckDNS update URL built by `update_duckdns` (the `format!` call). -/
def duckdns_url (config : Config) (ipv6 : String) : String :=
  "https://www.duckdns.org/update?domains=" ++ config.duckdns_domain ++
  "&token=" ++ config.duckdns_token ++ "&ipv6=" ++ ipv6 ++ "&verbose=true"

/-- `reqwest::StatusCode::is_success()`: the 2xx class. -/
def status_is_success (status : Nat) : Bool :=
  200 ≤ status && status ≤ 299

/-- `update_duckdns`: build the URL, log it at info level, GET it;
`response` is the transport result of `send()?` plus `text()?`
(ok = status code and body).  Any 2xx status yields `Ok(())`; any other
status yields an error string naming the status (the body appears only
in the response log line). -/
def update_duckdns (config : Config) (ipv6 : String)
    (response : Except String (Nat × String)) :
    List LogEntry × Except String Unit :=
  let url := duckdns_url config ipv6
  match response with
  | .error e => ([⟨.info, "Updating DuckDNS with URL: " ++ url⟩], .error e)
  | .ok (status, body) =>
      let logs := [⟨LogLevel.info, "Updating DuckDNS with URL: " ++ url⟩,
                   ⟨LogLevel.info, "DuckDNS update response - Status: " ++
                     toString status ++ ", Body: " ++ body⟩]
      if status_is_success status then (logs, .ok ())
      else (logs, .error ("DuckDNS update failed with status: " ++
              toString status))

/-- `update_ddns`: resolve the address, then publish it; either failure
propagates as the function's `Err` via `?`. -/
def update_ddns (config : Config) (externalResponse : Except String String)
    (ifaces : List IfAddr) (publishResponse : Except String (Nat × String)) :
    List LogEntry × Except String Unit :=
  let start : LogEntry := ⟨.info, "Starting DDNS update process"⟩
  let r := get_ipv6_address config externalResponse ifaces
  match r.2 with
  | .error e => (start :: r.1, .error e)
  | .ok ipv6 =>
      let p := update_duckdns config ipv6 publishResponse
      (start :: r.1 ++ ⟨.info, "Current IPv6 address: " ++ ipv6⟩ :: p.1, p.2)

/-- The outcome of one scheduled cycle: the job closure in `main` turns
`update_ddns`'s result into a log line and never rethrows. -/
inductive UpdateOutcome where
  | success
  | failure (reason : String)
deriving DecidableEq, Repr

/-- The body of the scheduled job in `main`: run `update_ddns` and match its
result, logging success or failure; the error never escapes the closure. -/
def run_cycle (config : Config) (externalResponse : Except String String)
    (ifaces : List IfAddr) (publishResponse : Except String (Nat × String)) :
    List LogEntry × UpdateOutcome :=
  let r := update_ddns config externalResponse ifaces publishResponse
  match r.2 with
  | .ok _ => (r.1 ++ [⟨.info, "DDNS update completed successfully"⟩], .success)
  | .error e =>
      (r.1 ++ [⟨.error, "Failed to update DDNS: " ++ e⟩], .failure e)

/-- A sample configuration using the external strategy, for concrete
evaluations. -/
def cfgExt : Config :=
  { cron := "0 */5 * * * *", ipv6_method := "external",
    ip_service_url := "https://6.ipw.cn", duckdns_domain := "mydomain",
    duckdns_token := "mytoken", hosts_interface := none }

/-- The sample configuration with an unrecognized `ipv6_method`. -/
def cfgBogus : Config := { cfgExt with ipv6_method := "bogus" }

/-- The sample configuration with a recognizable secret as the token. -/
def cfgSecret : Config := { cfgExt with duckdns_token := "SECRETTOKEN" }

/-- Modelled from the spec's words for the External strategy: "the entire
response body, trimmed" — removal of surrounding whitespace, written over
the character list so that it evaluates inside the kernel. -/
def spec_trimmed (s : String) : String :=
  String.mk (((s.data.dropWhile Char.isWhitespace).reverse.dropWhile
    Char.isWhitespace).reverse)

/-- Modelled from the spec's words for the Local strategy without a name:
scan in enumeration order, skip loopback interfaces, take the first IPv6
address. -/
def first_nonloopback_ipv6 : List IfAddr → Option String
  | [] => none
  | e :: rest =>
    if e.is_loopback then first_nonloopback_ipv6 rest
    else
      match e.ip with
      | .v6 a => some a
      | .v4 _ => first_nonloopback_ipv6 rest

/-- Modelled from the spec's words for the Local strategy with a name:
consider only interfaces whose name equals the given name exactly, take the
first IPv6 address among them. -/
def first_named_ipv6 (n : String) : List IfAddr → Option String
  | [] => none
  | e :: rest =>
    if e.name = n then
      match e.ip with
      | .v6 a => some a
      | .v4 _ => first_named_ipv6 n rest
    else first_named_ipv6 n rest

/-- Claim C2, counterexample: the non-2xx error of `update_duckdns` names the
status but does not capture the response body — two different bodies with
status 400 produce the identical error value, so no error can be said to
carry the body. -/
theorem publish_body_not_captured :
    (update_duckdns cfgExt "2001:db8::1" (.ok (400, "KO"))).2 =
      .error "DuckDNS update failed with status: 400" ∧
    (update_duckdns cfgExt "2001:db8::1" (.ok (400, "KO"))).2 =
      (update_duckdns cfgExt "2001:db8::1" (.ok (400, "a different body"))).2 ∧
    ("KO" : String) ≠ "a different body" :=
  ⟨rfl, rfl, by decide⟩

/-- Claim C2 (amended): `update_duckdns` interprets the outcome purely by
HTTP status class — every 2xx response yields success and every non-2xx
response yields an error capturing that status (the body is only logged,
not captured in the error). -/
theorem publish_status_class (c : Config) (ip body : String) (status : Nat) :
    (update_duckdns c ip (.ok (status, body))).2 =
      (if status_is_success status then Except.ok ()
       else Except.error ("DuckDNS update failed with status: " ++
         toString status)) := by
  by_cases h : status_is_success status <;> simp [update_duckdns, h]

/-- Claim C3, counterexample: for response bodies that are not IPv6 literals
— the empty string, an IPv4 literal, garbage text — the External resolver
returns the body unchanged instead of failing with an invalid-address
error. -/
theorem external_no_validation :
    (get_ipv6_from_external_service "https://6.ipw.cn" (.ok "")).2 =
      .ok "" ∧
    (get_ipv6_from_external_service "https://6.ipw.cn" (.ok "127.0.0.1")).2 =
      .ok "127.0.0.1" ∧
    (get_ipv6_from_external_service "https://6.ipw.cn" (.ok "garbage text")).2 =
      .ok "garbage text" :=
  ⟨rfl, rfl, rfl⟩

/-- Claim C3 (amended): the External resolver performs no validation of the
response body: every body, IPv6 literal or not, is returned unchanged, and
no invalid-address failure exists in the code. -/
theorem external_returns_any_body (url body : String) :
    (get_ipv6_from_external_service url (.ok body)).2 = .ok body := rfl

/-- Claim C4, counterexample: the External resolver does not trim the
response body — a body with surrounding whitespace is returned verbatim,
not trimmed of surrounding whitespace as the claim states. -/
theorem external_does_not_trim :
    (get_ipv6_from_external_service "https://6.ipw.cn"
        (.ok " 2001:db8::1 ")).2 = .ok " 2001:db8::1 " ∧
    spec_trimmed " 2001:db8::1 " = "2001:db8::1" ∧
    (" 2001:db8::1 " : String) ≠ "2001:db8::1" :=
  ⟨rfl, by decide, by decide⟩

/-- Claim C4 (amended): the External resolver issues one GET to the
configured URL and treats the entire response body, untrimmed, as the
resolved address (transport errors pass through); in particular a body that
is exactly a valid IPv6 literal is returned exactly. -/
theorem external_returns_exact_body (url : String)
    (response : Except String String) :
    (get_ipv6_from_external_service url response).2 = response := by
  cases response <;> rfl

/-- Claim C5: with the Local strategy and no interface name,
`get_local_ipv6_address` scans the entries in enumeration order, skips every
loopback entry, and returns the first IPv6 address of a non-loopback entry;
when none exists it fails with the no-address-found error. -/
theorem local_unnamed_resolution (ifs : List IfAddr) :
    (get_local_ipv6_address none ifs).2 =
      (match first_nonloopback_ipv6 ifs with
       | some a => Except.ok a
       | none =>
           Except.error "No public IPv6 address found on any interface") := by
  induction ifs with
  | nil => rfl
  | cons e rest ih =>
    cases hb : e.is_loopback <;> cases hip : e.ip <;>
      simp [get_local_ipv6_address, first_nonloopback_ipv6, hb, hip, ih]

/-- Helper: the named Local lookup agrees with the first-matching-IPv6 scan;
shared by the named-resolution and loopback-inclusion results. -/
theorem local_named_eq (n : String) (ifs : List IfAddr) :
    (get_local_ipv6_address (some n) ifs).2 =
      (match first_named_ipv6 n ifs with
       | some a => Except.ok a
       | none =>
           Except.error
             ("No IPv6 address found for interface \x27" ++ n ++ "\x27")) := by
  induction ifs with
  | nil => rfl
  | cons e rest ih =>
    by_cases hn : e.name = n
    · cases hip : e.ip <;>
        simp [get_local_ipv6_address, first_named_ipv6, hn, hip, ih]
    · simp [get_local_ipv6_address, first_named_ipv6, bne_iff_ne, hn, ih]

/-- Claim C6: with the Local strategy and an interface name,
`get_local_ipv6_address` considers only entries whose name equals the given
name exactly and returns the first IPv6 address among them; it fails with
one and the same interface-not-found error both when no entry has that name
and when the matching entries carry no IPv6 address. -/
theorem local_named_resolution (n : String) (ifs : List IfAddr) :
    (get_local_ipv6_address (some n) ifs).2 =
      (match first_named_ipv6 n ifs with
       | some a => Except.ok a
       | none =>
           Except.error
             ("No IPv6 address found for interface \x27" ++ n ++ "\x27")) :=
  local_named_eq n ifs

/-- Claim C1: one cycle first resolves; on resolve failure the cycle ends in
`failure` carrying the resolve error and the publish call is never attempted
(the whole cycle, logs included, is independent of the publish response); on
resolve success it publishes, ending in `failure` carrying the publish error
when that fails and in `success` only when both steps succeed; and every
cycle ends in `success` or `failure` — no error escapes the boundary. -/
theorem update_cycle_contract (c : Config) (ext : Except String String)
    (ifs : List IfAddr) (pub pub' : Except String (Nat × String)) :
    (∀ e, (get_ipv6_address c ext ifs).2 = .error e →
       (run_cycle c ext ifs pub).2 = .failure e ∧
       run_cycle c ext ifs pub = run_cycle c ext ifs pub') ∧
    (∀ ip e, (get_ipv6_address c ext ifs).2 = .ok ip →
       (update_duckdns c ip pub).2 = .error e →
       (run_cycle c ext ifs pub).2 = .failure e) ∧
    (∀ ip, (get_ipv6_address c ext ifs).2 = .ok ip →
       (update_duckdns c ip pub).2 = .ok () →
       (run_cycle c ext ifs pub).2 = .success) ∧
    ((run_cycle c ext ifs pub).2 = .success ∨
       ∃ e, (run_cycle c ext ifs pub).2 = .failure e) := by
  refine ⟨fun e he => ⟨?_, ?_⟩, fun ip e hip hp => ?_, fun ip hip hp => ?_, ?_⟩
  · simp [run_cycle, update_ddns, he]
  · simp [run_cycle, update_ddns, he]
  · simp [run_cycle, update_ddns, hip, hp]
  · simp [run_cycle, update_ddns, hip, hp]
  · cases hq : (run_cycle c ext ifs pub).2 with
    | success => exact Or.inl rfl
    | failure e => exact Or.inr ⟨e, rfl⟩

/-- Witness for C1 at concrete inputs: resolve returns `2001:db8::1`,
publish answers 200, the cycle reports success. -/
theorem update_cycle_contract_witness :
    (get_ipv6_address cfgExt (Except.ok "2001:db8::1") []).2 =
      Except.ok "2001:db8::1" ∧
    (update_duckdns cfgExt "2001:db8::1" (Except.ok (200, "OK"))).2 =
      Except.ok () ∧
    (run_cycle cfgExt (Except.ok "2001:db8::1") []
        (Except.ok (200, "OK"))).2 = UpdateOutcome.success :=
  ⟨rfl, rfl,
   (update_cycle_contract cfgExt (Except.ok "2001:db8::1") []
       (Except.ok (200, "OK")) (Except.ok (200, "OK"))).2.2.1
     "2001:db8::1" rfl rfl⟩

/-- Claim C7, counterexample: for the unrecognized method "bogus" the
resolver emits no warn-level line at all — the signal is logged at error
level — while still falling back to the external service. -/
theorem unknown_method_no_warn :
    ((get_ipv6_address cfgBogus (Except.ok "2001:db8::1") []).1.all
        (fun e => e.level != LogLevel.warn)) = true ∧
    (get_ipv6_address cfgBogus (Except.ok "2001:db8::1") []).1.head? =
      some ⟨.error, "Invalid IPV6_METHOD: bogus. Using external service."⟩ ∧
    (get_ipv6_address cfgBogus (Except.ok "2001:db8::1") []).2 =
      Except.ok "2001:db8::1" :=
  ⟨rfl, rfl, rfl⟩

/-- Claim C7 (amended): for every method other than "external" and "local"
the resolver logs an error-level message naming the invalid method and then
behaves exactly as the External strategy on the same configuration — same
result and, after that first line, the same log lines. -/
theorem unknown_method_fallback (c : Config) (ext : Except String String)
    (ifs : List IfAddr) (h1 : c.ipv6_method ≠ "external")
    (h2 : c.ipv6_method ≠ "local") :
    get_ipv6_address c ext ifs =
      (⟨.error, "Invalid IPV6_METHOD: " ++ c.ipv6_method ++
          ". Using external service."⟩ ::
        (get_ipv6_from_external_service c.ip_service_url ext).1,
       (get_ipv6_from_external_service c.ip_service_url ext).2) := by
  simp [get_ipv6_address, h1, h2]

/-- Witness for the amended C7 at the concrete method "bogus". -/
theorem unknown_method_fallback_witness :
    cfgBogus.ipv6_method ≠ "external" ∧ cfgBogus.ipv6_method ≠ "local" ∧
    get_ipv6_address cfgBogus (Except.ok "x") [] =
      (⟨.error, "Invalid IPV6_METHOD: " ++ cfgBogus.ipv6_method ++
          ". Using external service."⟩ ::
        (get_ipv6_from_external_service cfgBogus.ip_service_url
           (Except.ok "x")).1,
       (get_ipv6_from_external_service cfgBogus.ip_service_url
          (Except.ok "x")).2) :=
  ⟨by decide, by decide,
   unknown_method_fallback cfgBogus (Except.ok "x") [] (by decide) (by decide)⟩

/-- Claim C8: evaluation of `update_duckdns` at a concrete secret shows the
very first emitted log line is the info line carrying the full update URL,
and that line contains the configured auth token in clear. -/
theorem token_logged_in_clear :
    (update_duckdns cfgSecret "2001:db8::1"
        (Except.ok (200, "OK"))).1.head? =
      some ⟨LogLevel.info,
        "Updating DuckDNS with URL: https://www.duckdns.org/update?domains=mydomain&token=SECRETTOKEN&ipv6=2001:db8::1&verbose=true"⟩ ∧
    ∃ front back,
      "Updating DuckDNS with URL: https://www.duckdns.org/update?domains=mydomain&token=SECRETTOKEN&ipv6=2001:db8::1&verbose=true" =
        front ++ cfgSecret.duckdns_token ++ back :=
  ⟨rfl,
   ⟨"Updating DuckDNS with URL: https://www.duckdns.org/update?domains=mydomain&token=",
    "&ipv6=2001:db8::1&verbose=true", by decide⟩⟩

/-- Claim C9: when domain or token is supplied by neither the configuration
file nor the environment, loading is fatal (`from_env` panics, modelled as
`none`) and the scheduler is never started; when domain and token come from
the environment alone (no file, no other variables set), the remaining
fields take their defaults: the five-minute cron expression, the "external"
method, and the public IPv6-echo service URL. -/
theorem startup_config_contract (fileData : Option ConfigFile)
    (env : String → Option String) :
    ((((∀ cf, fileData = some cf → cf.duckdns_domain = none) ∧
         env "DUCKDNS_DOMAIN" = none) ∨
      ((∀ cf, fileData = some cf → cf.duckdns_token = none) ∧
         env "DUCKDNS_TOKEN" = none)) →
      from_env fileData env = none ∧
        scheduler_started fileData env = false) ∧
    (∀ d t, fileData = none → env "DUCKDNS_DOMAIN" = some d →
      env "DUCKDNS_TOKEN" = some t → env "CRON" = none →
      env "IPV6_METHOD" = none → env "IP_SERVICE_URL" = none →
      from_env fileData env =
        some { cron := "0 */5 * * * *", ipv6_method := "external",
               ip_service_url := "https://6.ipw.cn", duckdns_domain := d,
               duckdns_token := t,
               hosts_interface := env "HOSTS_INTERFACE" }) := by
  constructor
  · rintro (⟨hf, he⟩ | ⟨hf, he⟩)
    · have hfile : from_file fileData = none := by
        cases fileData with
        | none => rfl
        | some cf => simp [from_file, hf cf rfl]
      have hnone : from_env fileData env = none := by
        simp [from_env, hfile, he]
      exact ⟨hnone, by simp [scheduler_started, hnone]⟩
    · have hfile : from_file fileData = none := by
        cases fileData with
        | none => rfl
        | some cf =>
          cases hd : cf.duckdns_domain <;> simp [from_file, hf cf rfl, hd]
      have hnone : from_env fileData env = none := by
        cases hd : env "DUCKDNS_DOMAIN" <;> simp [from_env, hfile, he, hd]
      exact ⟨hnone, by simp [scheduler_started, hnone]⟩
  · intro d t hfile hd ht hc hm hu
    subst hfile
    simp [from_env, from_file, hd, ht, hc, hm, hu]

/-- An environment with no variables set. -/
def envEmpty : String → Option String := fun _ => none

/-- An environment supplying only the domain and the token. -/
def envDomTok : String → Option String := fun k =>
  if k = "DUCKDNS_DOMAIN" then some "d"
  else if k = "DUCKDNS_TOKEN" then some "t"
  else none

/-- Witness for C9: no file and an empty environment is fatal; no file and an
environment carrying only domain and token yields the fully defaulted
configuration. -/
theorem startup_config_contract_witness :
    (from_env none envEmpty = none ∧
      scheduler_started none envEmpty = false) ∧
    from_env none envDomTok =
      some { cron := "0 */5 * * * *", ipv6_method := "external",
             ip_service_url := "https://6.ipw.cn", duckdns_domain := "d",
             duckdns_token := "t",
             hosts_interface := envDomTok "HOSTS_INTERFACE" } :=
  ⟨(startup_config_contract none envEmpty).1
      (Or.inl ⟨(fun _ h => nomatch h), rfl⟩),
   (startup_config_contract none envDomTok).2 "d" "t" rfl rfl rfl rfl rfl rfl⟩

/-- Claim C10: the loopback exclusion applies only when no interface name is
given — an explicitly named loopback interface bearing an IPv6 address is
returned, not skipped (while the same single-entry set yields the
no-address-found error when no name is given). -/
theorem named_loopback_not_skipped (n a : String) (pre suf : List IfAddr)
    (hpre : ∀ e ∈ pre, e.name ≠ n ∨ ∀ b, e.ip ≠ IpAddr.v6 b) :
    (get_local_ipv6_address (some n)
        (pre ++ { name := n, is_loopback := true, ip := IpAddr.v6 a } ::
          suf)).2 = Except.ok a ∧
    (get_local_ipv6_address none
        [{ name := n, is_loopback := true, ip := IpAddr.v6 a }]).2 =
      Except.error "No public IPv6 address found on any interface" := by
  constructor
  · rw [local_named_eq]
    have hspec : first_named_ipv6 n
        (pre ++ { name := n, is_loopback := true, ip := IpAddr.v6 a } ::
          suf) = some a := by
      induction pre with
      | nil => simp [first_named_ipv6]
      | cons e rest ih =>
        rcases hpre e (List.mem_cons_self e rest) with hne | hv
        · simp only [List.cons_append, first_named_ipv6, if_neg hne]
          exact ih fun e' he' => hpre e' (List.mem_cons_of_mem e he')
        · cases hip : e.ip with
          | v6 b => exact absurd hip (hv b)
          | v4 s =>
            by_cases hn : e.name = n <;>
              simp only [List.cons_append, first_named_ipv6, hn, hip,
                if_pos, if_neg, ite_true, ite_false] <;>
              exact ih fun e' he' => hpre e' (List.mem_cons_of_mem e he')
    rw [hspec]
  · rfl

/-- Witness for C10: a two-entry interface set whose named entry "lo" is a
loopback with address `::1`; naming it returns `::1`, while the unnamed scan
over the loopback-only set fails. -/
theorem named_loopback_not_skipped_witness :
    (get_local_ipv6_address (some "lo")
        [{ name := "eth0", is_loopback := false, ip := IpAddr.v4 "10.0.0.1" },
         { name := "lo", is_loopback := true, ip := IpAddr.v6 "::1" }]).2 =
      Except.ok "::1" ∧
    (get_local_ipv6_address none
        [{ name := "lo", is_loopback := true, ip := IpAddr.v6 "::1" }]).2 =
      Except.error "No public IPv6 address found on any interface" :=
  named_loopback_not_skipped "lo" "::1"
    [{ name := "eth0", is_loopback := false, ip := IpAddr.v4 "10.0.0.1" }] []
    (by
      intro e he
      have he' : e = ⟨"eth0", false, IpAddr.v4 "10.0.0.1"⟩ := by
        simpa using he
      subst he'
      exact Or.inl (by decide))

end Ddns
